import Mathlib

/-!
Shallow embedding of src/src/deployer/deployer.rs.

The program is a single-file Rust tool: it validates that a target file
exists, builds a blocking HTTP client with a 30-second timeout, performs an
initial deployment (POST of the file contents to
server ++ "/api/scripts/" ++ uri), and then, in watch mode, loops over
file-system change events, redeploying on every modify/create event after a
fixed 100 ms settle delay.

The embedding models the external world explicitly:
  - the file system as a partial read function (fs::read_to_string, which can
    fail: missing file, permission, invalid UTF-8);
  - the HTTP layer as a function from the issued request to an outcome,
    either a network-level error (send() returning Err) or a completed
    response carrying a status code and an optional body text
    (response.text() can itself fail, hence Option).
The watch loop is driven by a finite list of channel items, each paired with
the environment in force when that event is handled (file contents change
between events); the end of the list models the channel closing, which in
the code (deployer.rs lines 121-124) is the only way the loop ends.
-/

namespace Deployer

/-- Command-line arguments, deployer.rs lines 10-29 (struct Args). -/
structure Args where
  uri : String
  file : String
  server : String
  watch : Bool
deriving Repr, DecidableEq

/-- Kind of a file-system notification event (notify::EventKind as used by
the code: only is_modify and is_create are consulted). -/
inductive EventKind where
  | create
  | modify
  | remove
  | access
  | other
deriving Repr, DecidableEq

/-- event.kind.is_modify() as used at deployer.rs line 105. -/
def EventKind.is_modify : EventKind → Bool
  | .modify => true
  | _ => false

/-- event.kind.is_create() as used at deployer.rs line 105. -/
def EventKind.is_create : EventKind → Bool
  | .create => true
  | _ => false

/-- A file-system change event: a kind and the affected paths
(notify::Event has kind and a vector of paths). -/
structure ChangeEvent where
  kind : EventKind
  paths : List String
deriving Repr, DecidableEq

/-- The blocking HTTP client: the only configuration the code sets is the
timeout (deployer.rs line 74). -/
structure Client where
  timeoutSecs : Nat
deriving Repr, DecidableEq

/-- The client built at deployer.rs line 74:
Client::builder().timeout(Duration::from_secs(30)).build(). -/
def theClient : Client := ⟨30⟩

/-- An HTTP POST request as issued by deploy_script (line 46): the URL, the
client-side timeout in force, and the request body. -/
structure HttpRequest where
  url : String
  timeoutSecs : Nat
  body : String
deriving Repr, DecidableEq

/-- Outcome of send(): either a network-level error (Err from send) or a
completed response with a status code and an optional body text
(response.text() may fail, hence Option). -/
inductive HttpOutcome where
  | netError (msg : String)
  | response (status : Nat) (text : Option String)
deriving Repr, DecidableEq

/-- reqwest StatusCode::is_success(): status in 200..=299. -/
def isSuccessStatus (s : Nat) : Bool :=
  decide (200 ≤ s ∧ s < 300)

/-- The transient upload result computed inside deploy_script
(deployer.rs lines 48-59): success iff 2xx, the actual status code, and on
non-2xx the response body as error detail when retrievable. -/
structure UploadResult where
  success : Bool
  status : Nat
  errorDetail : Option String
deriving Repr, DecidableEq

/-- What one call of deploy_script amounts to.  The Rust function returns
Result of unit: readError and sendError are the two Err cases (the two
question-mark operators at lines 38 and 46); completed is the Ok case, which
the code reaches for every completed HTTP exchange, 2xx or not, carrying the
upload result it computes and reports at lines 48-59. -/
inductive DeployResult where
  | readError
  | sendError (msg : String)
  | completed (r : UploadResult)
deriving Repr, DecidableEq

/-- Whether the Rust return value is Err (this is what the callers at lines
77 and 111 branch on). -/
def DeployResult.isErr : DeployResult → Bool
  | .readError => true
  | .sendError _ => true
  | .completed _ => false

/-- Whether a deploy attempt failed in the broad sense: the file could not
be read, the request failed at the network level, or the exchange completed
with a non-2xx status (which deploy_script reports as a failed deployment at
lines 51-58 even though it returns Ok). -/
def DeployResult.isFailure : DeployResult → Bool
  | .readError => true
  | .sendError _ => true
  | .completed r => !r.success

/-- The external world seen by one deploy_script call. -/
structure Env where
  fs : String → Option String
  http : HttpRequest → HttpOutcome

/-- URL construction at deployer.rs line 41: plain string concatenation of
the server URL, the fixed path, and the uri, with no escaping. -/
def api_url (server_url uri : String) : String :=
  server_url ++ "/api/scripts/" ++ uri

/-- deploy_script (deployer.rs lines 31-62).  Returns the request it issued,
if any, together with the result.  The body of the request is exactly the
string read from the file; the URL is api_url; the timeout is the client
timeout.  On a completed response the function computes the upload result:
success iff the status is 2xx, and on non-2xx it captures the response text
as error detail when available (lines 48-59), then returns Ok. -/
def deploy_script (env : Env) (client : Client) (server_url uri file_path : String) :
    Option HttpRequest × DeployResult :=
  match env.fs file_path with
  | none => (none, .readError)
  | some content =>
    let req : HttpRequest := ⟨api_url server_url uri, client.timeoutSecs, content⟩
    match env.http req with
    | .netError m => (some req, .sendError m)
    | .response st txt =>
      (some req, .completed ⟨isSuccessStatus st, st,
        if isSuccessStatus st then none else txt⟩)

/-- The world seen by main at startup. -/
structure World where
  fileExists : String → Bool
  clientBuildOk : Bool
  watcherOk : Bool
  env : Env

/-- How the startup phase of main (deployer.rs lines 64-96) ends. -/
inductive StartupResult where
  | exitMissingFile
  | errClientBuild
  | exitInitialDeploy
  | oneShotDone
  | errWatcherSetup
  | enterWatchLoop
deriving Repr, DecidableEq

/-- Observable trace of the startup phase: how it ended, whether the HTTP
client was built, and the network requests issued. -/
structure StartupTrace where
  result : StartupResult
  clientBuilt : Bool
  requests : List HttpRequest
deriving Repr, DecidableEq

/-- The startup phase of main (deployer.rs lines 64-96), in order:
line 68 existence check (exit 1), line 74 client build (Err from main, exit
code 1), line 77 initial deployment (exit 1 when deploy_script returns Err),
line 82 the watch flag (return Ok, exit code 0), lines 93-96 watcher setup
(Err from main, exit code 1), then the loop is entered. -/
def startup (w : World) (args : Args) : StartupTrace :=
  if w.fileExists args.file = false then
    ⟨.exitMissingFile, false, []⟩
  else if w.clientBuildOk = false then
    ⟨.errClientBuild, false, []⟩
  else
    let p := deploy_script w.env theClient args.server args.uri args.file
    if (p.2).isErr then
      ⟨.exitInitialDeploy, true, p.1.toList⟩
    else if args.watch = false then
      ⟨.oneShotDone, true, p.1.toList⟩
    else if w.watcherOk = false then
      ⟨.errWatcherSetup, true, p.1.toList⟩
    else
      ⟨.enterWatchLoop, true, p.1.toList⟩

/-- Process exit code for each terminal startup outcome: exit(1) at lines 70
and 79; a Rust main returning Err exits with code 1; returning Ok exits with
code 0.  none for the non-terminal outcome (the loop is entered). -/
def startupExitCode : StartupResult → Option Nat
  | .exitMissingFile => some 1
  | .errClientBuild => some 1
  | .exitInitialDeploy => some 1
  | .oneShotDone => some 0
  | .errWatcherSetup => some 1
  | .enterWatchLoop => none

/-- Observable actions of the watch loop body (deployer.rs lines 99-126). -/
inductive LoopAction where
  | sleepMs (n : Nat)
  | postUpload (req : Option HttpRequest) (res : DeployResult)
  | logRedeployFailed
  | logWatchError (msg : String)
  | logChannelError
deriving Repr, DecidableEq

/-- One iteration of the loop body for a received channel item
(deployer.rs lines 101-119): an Err event from the notification source is
logged (line 118); an Ok event whose kind is modify or create triggers the
100 ms settle sleep (line 109) followed by one deploy_script call
(lines 111-112), whose Err is logged without stopping the loop (line 114);
any other kind does nothing. -/
def handleEvent (e : Env) (args : Args) (item : Except String ChangeEvent) :
    List LoopAction :=
  match item with
  | .error m => [.logWatchError m]
  | .ok ev =>
    if ev.kind.is_modify || ev.kind.is_create then
      let p := deploy_script e theClient args.server args.uri args.file
      .sleepMs 100 :: .postUpload p.1 p.2 ::
        (if (p.2).isErr then [.logRedeployFailed] else [])
    else []

/-- The actions of the whole loop (deployer.rs lines 99-126) on a finite
stream of channel items, each paired with the environment in force when it
is handled.  The end of the list is the channel reporting an error
(closure): the code logs it and breaks (lines 121-124). -/
def watchLoopActions (args : Args) :
    List (Env × Except String ChangeEvent) → List LoopAction
  | [] => [.logChannelError]
  | (e, item) :: rest => handleEvent e args item ++ watchLoopActions args rest

/-- The whole watch phase: its actions, and the process exit code.  After
the break at line 123 main falls through to Ok(()) at line 128, so the exit
code is 0. -/
def watchRun (args : Args) (inputs : List (Env × Except String ChangeEvent)) :
    List LoopAction × Nat :=
  (watchLoopActions args inputs, 0)

/-- Number of upload calls in a list of loop actions. -/
def uploadCount : List LoopAction → Nat
  | [] => 0
  | .postUpload _ _ :: rest => 1 + uploadCount rest
  | _ :: rest => uploadCount rest

/-- Unfolding of deploy_script when the read succeeds and the request
completes with a response. -/
theorem deploy_script_response (e : Env) (client : Client)
    (server_url uri file_path content : String) (st : Nat) (txt : Option String)
    (hread : e.fs file_path = some content)
    (hresp : e.http ⟨api_url server_url uri, client.timeoutSecs, content⟩ =
      .response st txt) :
    deploy_script e client server_url uri file_path =
      (some ⟨api_url server_url uri, client.timeoutSecs, content⟩,
       .completed ⟨isSuccessStatus st, st,
         if isSuccessStatus st then none else txt⟩) := by
  unfold deploy_script
  rw [hread]
  simp only [hresp]

/-- Unfolding of deploy_script when the read succeeds (the request is issued
whatever the HTTP layer then does). -/
theorem deploy_script_read_ok (e : Env) (client : Client)
    (server_url uri file_path content : String)
    (hread : e.fs file_path = some content) :
    (deploy_script e client server_url uri file_path).1 =
      some ⟨api_url server_url uri, client.timeoutSecs, content⟩ := by
  unfold deploy_script
  rw [hread]
  cases hh : e.http ⟨api_url server_url uri, client.timeoutSecs, content⟩ <;>
    simp only [hh]

/-- Claim C2: whenever the upload's HTTP request completes (the file was
read and send() returned a response), deploy_script reaches its Ok branch
with an upload result whose success field is true exactly when the status is
2xx, whose status field is the server's actual status code, and which on a
non-2xx status is a failure. -/
theorem C2_upload_result_iff_2xx (e : Env)
    (server_url uri file_path content : String) (st : Nat) (txt : Option String)
    (hread : e.fs file_path = some content)
    (hresp : e.http ⟨api_url server_url uri, theClient.timeoutSecs, content⟩ =
      .response st txt) :
    ∃ r : UploadResult,
      (deploy_script e theClient server_url uri file_path).2 = .completed r ∧
      (r.success = true ↔ isSuccessStatus st = true) ∧
      r.status = st ∧
      (isSuccessStatus st = false → r.success = false) := by
  refine ⟨⟨isSuccessStatus st, st, if isSuccessStatus st then none else txt⟩,
    ?_, Iff.rfl, rfl, fun h => h⟩
  rw [deploy_script_response e theClient server_url uri file_path content st txt
    hread hresp]

/-- Witness for C2: a concrete environment where the server answers 204. -/
theorem C2_upload_result_iff_2xx_witness :
    ∃ r : UploadResult,
      (deploy_script ⟨fun _ => some "console.log(1)", fun _ => .response 204 none⟩
        theClient "http://localhost:4000" "my-script" "file.js").2 = .completed r ∧
      (r.success = true ↔ isSuccessStatus 204 = true) ∧
      r.status = 204 ∧
      (isSuccessStatus 204 = false → r.success = false) :=
  C2_upload_result_iff_2xx
    ⟨fun _ => some "console.log(1)", fun _ => .response 204 none⟩
    "http://localhost:4000" "my-script" "file.js" "console.log(1)" 204 none
    rfl rfl

/-- Claim C7: every issued upload request has URL equal to the base server
URL, then the fixed path piece, then the identifier, concatenated verbatim,
and carries the fixed 30-second client timeout. -/
theorem C7_request_url_and_timeout (e : Env)
    (server_url uri file_path content : String)
    (hread : e.fs file_path = some content) :
    ∃ req : HttpRequest,
      (deploy_script e theClient server_url uri file_path).1 = some req ∧
      req.url = server_url ++ "/api/scripts/" ++ uri ∧
      req.timeoutSecs = 30 := by
  refine ⟨⟨api_url server_url uri, theClient.timeoutSecs, content⟩, ?_, rfl, rfl⟩
  exact deploy_script_read_ok e theClient server_url uri file_path content hread

/-- Witness for C7 at a concrete input. -/
theorem C7_request_url_and_timeout_witness :
    ∃ req : HttpRequest,
      (deploy_script ⟨fun _ => some "body", fun _ => .netError "refused"⟩
        theClient "http://localhost:4000" "my-script" "file.js").1 = some req ∧
      req.url = "http://localhost:4000" ++ "/api/scripts/" ++ "my-script" ∧
      req.timeoutSecs = 30 :=
  C7_request_url_and_timeout ⟨fun _ => some "body", fun _ => .netError "refused"⟩
    "http://localhost:4000" "my-script" "file.js" "body" rfl

/-- Claim C8: the body of the issued POST request is exactly the file
contents as read, unmodified and entire. -/
theorem C8_body_is_file_contents (e : Env)
    (server_url uri file_path content : String)
    (hread : e.fs file_path = some content) :
    ∃ req : HttpRequest,
      (deploy_script e theClient server_url uri file_path).1 = some req ∧
      req.body = content := by
  refine ⟨⟨api_url server_url uri, theClient.timeoutSecs, content⟩, ?_, rfl⟩
  exact deploy_script_read_ok e theClient server_url uri file_path content hread

/-- Witness for C8 at a concrete input. -/
theorem C8_body_is_file_contents_witness :
    ∃ req : HttpRequest,
      (deploy_script ⟨fun _ => some "console.log(1)", fun _ => .response 200 none⟩
        theClient "http://localhost:4000" "my-script" "file.js").1 = some req ∧
      req.body = "console.log(1)" :=
  C8_body_is_file_contents
    ⟨fun _ => some "console.log(1)", fun _ => .response 200 none⟩
    "http://localhost:4000" "my-script" "file.js" "console.log(1)" rfl

/-- Claim C4: when the target file does not exist, startup ends at the
existence check with exit code 1, no request issued and the HTTP client
never built. -/
theorem C4_missing_file_exits_before_network (w : World) (args : Args)
    (h : w.fileExists args.file = false) :
    (startup w args).result = .exitMissingFile ∧
    startupExitCode (startup w args).result = some 1 ∧
    (startup w args).requests = [] ∧
    (startup w args).clientBuilt = false := by
  simp [startup, h, startupExitCode]

/-- Witness for C4 at a concrete input. -/
theorem C4_missing_file_exits_before_network_witness :
    (startup
      ⟨fun _ => false, true, true,
        ⟨fun _ => some "x", fun _ => .response 200 none⟩⟩
      ⟨"my-script", "file.js", "http://localhost:4000", true⟩).result =
        .exitMissingFile ∧
    startupExitCode (startup
      ⟨fun _ => false, true, true,
        ⟨fun _ => some "x", fun _ => .response 200 none⟩⟩
      ⟨"my-script", "file.js", "http://localhost:4000", true⟩).result = some 1 ∧
    (startup
      ⟨fun _ => false, true, true,
        ⟨fun _ => some "x", fun _ => .response 200 none⟩⟩
      ⟨"my-script", "file.js", "http://localhost:4000", true⟩).requests = [] ∧
    (startup
      ⟨fun _ => false, true, true,
        ⟨fun _ => some "x", fun _ => .response 200 none⟩⟩
      ⟨"my-script", "file.js", "http://localhost:4000", true⟩).clientBuilt = false :=
  C4_missing_file_exits_before_network
    ⟨fun _ => false, true, true, ⟨fun _ => some "x", fun _ => .response 200 none⟩⟩
    ⟨"my-script", "file.js", "http://localhost:4000", true⟩ rfl

/-- Claim C1, counterexample: the server answers the first upload with
status 500 (a non-2xx status, so the upload attempt fails in the sense of the
claim, and deploy_script records a failed upload result), yet deploy_script
reaches its Ok branch, so main does not exit with code 1: in one-shot mode
the process completes with exit code 0. -/
theorem C1_counterexample :
    (deploy_script
        ⟨fun _ => some "console.log(1)", fun _ => .response 500 (some "boom")⟩
        theClient "http://localhost:4000" "my-script" "file.js").2 =
      DeployResult.completed ⟨false, 500, some "boom"⟩ ∧
    (startup
      ⟨fun _ => true, true, true,
        ⟨fun _ => some "console.log(1)", fun _ => .response 500 (some "boom")⟩⟩
      ⟨"my-script", "file.js", "http://localhost:4000", false⟩).result =
        .oneShotDone ∧
    startupExitCode (startup
      ⟨fun _ => true, true, true,
        ⟨fun _ => some "console.log(1)", fun _ => .response 500 (some "boom")⟩⟩
      ⟨"my-script", "file.js", "http://localhost:4000", false⟩).result =
        some 0 := by
  refine ⟨?_, ?_, ?_⟩ <;> rfl

/-- Claim C1 as amended: the first upload attempt is fatal (exit code 1)
exactly when deploy_script returns an error, that is, when the file could
not be read or the HTTP request failed at the network level; a completed
HTTP exchange, even with a non-2xx status, is reported but not fatal. -/
theorem C1_amended_initial_error_exits_one (w : World) (args : Args)
    (hfile : w.fileExists args.file = true)
    (hclient : w.clientBuildOk = true)
    (herr : ((deploy_script w.env theClient args.server args.uri
      args.file).2).isErr = true) :
    (startup w args).result = .exitInitialDeploy ∧
    startupExitCode (startup w args).result = some 1 := by
  simp [startup, hfile, hclient, herr, startupExitCode]

/-- Witness for the amended C1: a file whose read fails on the first upload
attempt makes startup end with exit code 1. -/
theorem C1_amended_initial_error_exits_one_witness :
    (startup
      ⟨fun _ => true, true, true, ⟨fun _ => none, fun _ => .response 200 none⟩⟩
      ⟨"my-script", "file.js", "http://localhost:4000", true⟩).result =
        .exitInitialDeploy ∧
    startupExitCode (startup
      ⟨fun _ => true, true, true, ⟨fun _ => none, fun _ => .response 200 none⟩⟩
      ⟨"my-script", "file.js", "http://localhost:4000", true⟩).result = some 1 :=
  C1_amended_initial_error_exits_one
    ⟨fun _ => true, true, true, ⟨fun _ => none, fun _ => .response 200 none⟩⟩
    ⟨"my-script", "file.js", "http://localhost:4000", true⟩ rfl rfl rfl

/-- Helper: the loop body on a modify/create event, unfolded. -/
theorem handleEvent_of_relevant (e : Env) (args : Args) (ev : ChangeEvent)
    (h : ev.kind.is_modify = true ∨ ev.kind.is_create = true) :
    handleEvent e args (.ok ev) =
      .sleepMs 100 ::
        .postUpload (deploy_script e theClient args.server args.uri args.file).1
          (deploy_script e theClient args.server args.uri args.file).2 ::
        (if ((deploy_script e theClient args.server args.uri args.file).2).isErr
          then [.logRedeployFailed] else []) := by
  have hb : (ev.kind.is_modify || ev.kind.is_create) = true := by
    rcases h with h | h <;> simp [h]
  unfold handleEvent
  simp only [hb, if_true]

/-- Helper: a modify/create event produces exactly one upload call. -/
theorem uploadCount_of_relevant (e : Env) (args : Args) (ev : ChangeEvent)
    (h : ev.kind.is_modify = true ∨ ev.kind.is_create = true) :
    uploadCount (handleEvent e args (.ok ev)) = 1 := by
  rw [handleEvent_of_relevant e args ev h]
  cases hif : ((deploy_script e theClient args.server args.uri
      args.file).2).isErr <;>
    simp [hif, uploadCount]

/-- Helper: the loop processes one channel item and then goes on with the
rest of the stream. -/
theorem watchLoopActions_cons (args : Args) (e : Env)
    (item : Except String ChangeEvent)
    (rest : List (Env × Except String ChangeEvent)) :
    watchLoopActions args ((e, item) :: rest) =
      handleEvent e args item ++ watchLoopActions args rest := rfl

/-- Claim C3: an event whose kind is neither modify nor create causes no
action at all — no settle sleep, no upload, nothing — and the loop simply
goes on with the rest of the stream. -/
theorem C3_irrelevant_kind_no_action (e : Env) (args : Args) (ev : ChangeEvent)
    (rest : List (Env × Except String ChangeEvent))
    (hm : ev.kind.is_modify = false) (hc : ev.kind.is_create = false) :
    handleEvent e args (.ok ev) = [] ∧
    watchLoopActions args ((e, Except.ok ev) :: rest) =
      watchLoopActions args rest := by
  have h : handleEvent e args (.ok ev) = [] := by
    unfold handleEvent
    simp [hm, hc]
  exact ⟨h, by rw [watchLoopActions_cons, h, List.nil_append]⟩

/-- Witness for C3: a removal event leaves the loop actions unchanged. -/
theorem C3_irrelevant_kind_no_action_witness :
    handleEvent ⟨fun _ => some "x", fun _ => .response 200 none⟩
      ⟨"my-script", "file.js", "http://localhost:4000", true⟩
      (.ok ⟨EventKind.remove, ["file.js"]⟩) = [] ∧
    watchLoopActions ⟨"my-script", "file.js", "http://localhost:4000", true⟩
      ((⟨fun _ => some "x", fun _ => .response 200 none⟩,
        Except.ok ⟨EventKind.remove, ["file.js"]⟩) :: []) =
      watchLoopActions ⟨"my-script", "file.js", "http://localhost:4000", true⟩ [] :=
  C3_irrelevant_kind_no_action
    ⟨fun _ => some "x", fun _ => .response 200 none⟩
    ⟨"my-script", "file.js", "http://localhost:4000", true⟩
    ⟨EventKind.remove, ["file.js"]⟩ [] rfl rfl

/-- Claim C5: when the redeploy attempt for a modify/create event fails in
any way — the file could not be re-read, the request failed at the network
level, or the server answered with a non-2xx status such as 500 — the loop
is not terminated: the failed attempt contributes exactly its own actions
(the failure being recorded in the trace, by the logRedeployFailed action
for an Err return and by the failed upload result carried by the upload
action for a completed non-2xx exchange), the stream goes on being
processed, and a later modify/create event still produces exactly one new
upload call. -/
theorem C5_failed_redeploy_continues (e1 e2 : Env) (args : Args)
    (ev1 ev2 : ChangeEvent) (rest : List (Env × Except String ChangeEvent))
    (h1 : ev1.kind.is_modify = true ∨ ev1.kind.is_create = true)
    (hfail : ((deploy_script e1 theClient args.server args.uri
      args.file).2).isFailure = true)
    (h2 : ev2.kind.is_modify = true ∨ ev2.kind.is_create = true) :
    handleEvent e1 args (.ok ev1) =
      .sleepMs 100 ::
        .postUpload (deploy_script e1 theClient args.server args.uri args.file).1
          (deploy_script e1 theClient args.server args.uri args.file).2 ::
        (if ((deploy_script e1 theClient args.server args.uri args.file).2).isErr
          then [.logRedeployFailed] else []) ∧
    watchLoopActions args ((e1, Except.ok ev1) :: (e2, Except.ok ev2) :: rest) =
      handleEvent e1 args (.ok ev1) ++ handleEvent e2 args (.ok ev2) ++
        watchLoopActions args rest ∧
    uploadCount (handleEvent e2 args (.ok ev2)) = 1 := by
  refine ⟨handleEvent_of_relevant e1 args ev1 h1, ?_,
    uploadCount_of_relevant e2 args ev2 h2⟩
  rw [watchLoopActions_cons, watchLoopActions_cons, List.append_assoc]

/-- Witness for C5 at the server-500 case: the redeploy completes with
status 500 (a failed upload result, deploy_script returning Ok), the loop
keeps going, and the following modify event produces exactly one new
upload. -/
theorem C5_failed_redeploy_continues_witness :
    handleEvent ⟨fun _ => some "x", fun _ => .response 500 (some "boom")⟩
      ⟨"my-script", "file.js", "http://localhost:4000", true⟩
      (.ok ⟨EventKind.modify, ["file.js"]⟩) =
      .sleepMs 100 ::
        .postUpload
          (deploy_script ⟨fun _ => some "x", fun _ => .response 500 (some "boom")⟩
            theClient "http://localhost:4000" "my-script" "file.js").1
          (deploy_script ⟨fun _ => some "x", fun _ => .response 500 (some "boom")⟩
            theClient "http://localhost:4000" "my-script" "file.js").2 ::
        (if ((deploy_script ⟨fun _ => some "x", fun _ => .response 500 (some "boom")⟩
            theClient "http://localhost:4000" "my-script" "file.js").2).isErr
          then [.logRedeployFailed] else []) ∧
    watchLoopActions ⟨"my-script", "file.js", "http://localhost:4000", true⟩
      ((⟨fun _ => some "x", fun _ => .response 500 (some "boom")⟩,
        Except.ok ⟨EventKind.modify, ["file.js"]⟩) ::
       (⟨fun _ => some "y", fun _ => .response 200 none⟩,
        Except.ok ⟨EventKind.modify, ["file.js"]⟩) :: []) =
      handleEvent ⟨fun _ => some "x", fun _ => .response 500 (some "boom")⟩
        ⟨"my-script", "file.js", "http://localhost:4000", true⟩
        (.ok ⟨EventKind.modify, ["file.js"]⟩) ++
      handleEvent ⟨fun _ => some "y", fun _ => .response 200 none⟩
        ⟨"my-script", "file.js", "http://localhost:4000", true⟩
        (.ok ⟨EventKind.modify, ["file.js"]⟩) ++
      watchLoopActions ⟨"my-script", "file.js", "http://localhost:4000", true⟩ [] ∧
    uploadCount (handleEvent ⟨fun _ => some "y", fun _ => .response 200 none⟩
      ⟨"my-script", "file.js", "http://localhost:4000", true⟩
      (.ok ⟨EventKind.modify, ["file.js"]⟩)) = 1 :=
  C5_failed_redeploy_continues
    ⟨fun _ => some "x", fun _ => .response 500 (some "boom")⟩
    ⟨fun _ => some "y", fun _ => .response 200 none⟩
    ⟨"my-script", "file.js", "http://localhost:4000", true⟩
    ⟨EventKind.modify, ["file.js"]⟩ ⟨EventKind.modify, ["file.js"]⟩ []
    (Or.inl rfl) rfl (Or.inl rfl)

/-- Claim C6: a modify/create event makes the loop body sleep the fixed
100 ms settle delay first and then perform exactly one upload call — the
upload reads the file only after the delay, which the action order records —
and whatever the upload result is, the loop goes on with the rest of the
stream. -/
theorem C6_settle_then_one_upload (e : Env) (args : Args) (ev : ChangeEvent)
    (rest : List (Env × Except String ChangeEvent))
    (h : ev.kind.is_modify = true ∨ ev.kind.is_create = true) :
    handleEvent e args (.ok ev) =
      .sleepMs 100 ::
        .postUpload (deploy_script e theClient args.server args.uri args.file).1
          (deploy_script e theClient args.server args.uri args.file).2 ::
        (if ((deploy_script e theClient args.server args.uri args.file).2).isErr
          then [.logRedeployFailed] else []) ∧
    uploadCount (handleEvent e args (.ok ev)) = 1 ∧
    watchLoopActions args ((e, Except.ok ev) :: rest) =
      handleEvent e args (.ok ev) ++ watchLoopActions args rest :=
  ⟨handleEvent_of_relevant e args ev h, uploadCount_of_relevant e args ev h,
    watchLoopActions_cons args e (.ok ev) rest⟩

/-- Witness for C6: a concrete create event with a 200 response. -/
theorem C6_settle_then_one_upload_witness :
    handleEvent ⟨fun _ => some "x", fun _ => .response 200 none⟩
      ⟨"my-script", "file.js", "http://localhost:4000", true⟩
      (.ok ⟨EventKind.create, ["file.js"]⟩) =
      .sleepMs 100 ::
        .postUpload
          (deploy_script ⟨fun _ => some "x", fun _ => .response 200 none⟩
            theClient "http://localhost:4000" "my-script" "file.js").1
          (deploy_script ⟨fun _ => some "x", fun _ => .response 200 none⟩
            theClient "http://localhost:4000" "my-script" "file.js").2 ::
        (if ((deploy_script ⟨fun _ => some "x", fun _ => .response 200 none⟩
            theClient "http://localhost:4000" "my-script" "file.js").2).isErr
          then [.logRedeployFailed] else []) ∧
    uploadCount (handleEvent ⟨fun _ => some "x", fun _ => .response 200 none⟩
      ⟨"my-script", "file.js", "http://localhost:4000", true⟩
      (.ok ⟨EventKind.create, ["file.js"]⟩)) = 1 ∧
    watchLoopActions ⟨"my-script", "file.js", "http://localhost:4000", true⟩
      ((⟨fun _ => some "x", fun _ => .response 200 none⟩,
        Except.ok ⟨EventKind.create, ["file.js"]⟩) :: []) =
      handleEvent ⟨fun _ => some "x", fun _ => .response 200 none⟩
        ⟨"my-script", "file.js", "http://localhost:4000", true⟩
        (.ok ⟨EventKind.create, ["file.js"]⟩) ++
      watchLoopActions ⟨"my-script", "file.js", "http://localhost:4000", true⟩ [] :=
  C6_settle_then_one_upload
    ⟨fun _ => some "x", fun _ => .response 200 none⟩
    ⟨"my-script", "file.js", "http://localhost:4000", true⟩
    ⟨EventKind.create, ["file.js"]⟩ [] (Or.inr rfl)

/-- Helper: however long the stream of channel items, the loop ends by
logging the channel error and breaking. -/
theorem watchLoopActions_ends_channelError (args : Args)
    (inputs : List (Env × Except String ChangeEvent)) :
    ∃ pre, watchLoopActions args inputs = pre ++ [LoopAction.logChannelError] := by
  induction inputs with
  | nil => exact ⟨[], rfl⟩
  | cons i rest ih =>
    obtain ⟨e, item⟩ := i
    obtain ⟨pre, hp⟩ := ih
    exact ⟨handleEvent e args item ++ pre, by
      rw [watchLoopActions_cons, hp, List.append_assoc]⟩

/-- Claim C9: when the event-delivery channel reports an error or closes,
the watch loop terminates gracefully — its last action is logging the
channel error — and the process exits with code 0. -/
theorem C9_channel_close_exits_zero (args : Args)
    (inputs : List (Env × Except String ChangeEvent)) :
    (watchRun args inputs).2 = 0 ∧
    ∃ pre, (watchRun args inputs).1 = pre ++ [LoopAction.logChannelError] :=
  ⟨rfl, watchLoopActions_ends_channelError args inputs⟩

/-- Claim C10: the loop body never looks at the paths carried by an event —
two events of the same kind with different path payloads produce identical
actions — and when the kind is modify or create the single upload performed
is deploy_script applied to the originally configured server, uri and file
path, not to anything taken from the event. -/
theorem C10_event_path_ignored (e : Env) (args : Args) (k : EventKind)
    (p1 p2 : List String) :
    handleEvent e args (.ok ⟨k, p1⟩) = handleEvent e args (.ok ⟨k, p2⟩) ∧
    (k.is_modify = true ∨ k.is_create = true →
      handleEvent e args (.ok ⟨k, p1⟩) =
        .sleepMs 100 ::
          .postUpload
            (deploy_script e theClient args.server args.uri args.file).1
            (deploy_script e theClient args.server args.uri args.file).2 ::
          (if ((deploy_script e theClient args.server args.uri
              args.file).2).isErr
            then [.logRedeployFailed] else [])) :=
  ⟨rfl, fun h => handleEvent_of_relevant e args ⟨k, p1⟩ h⟩

/-- Witness for C10: two modify events with different recorded paths lead to
the same single upload of the configured file. -/
theorem C10_event_path_ignored_witness :
    handleEvent ⟨fun _ => some "x", fun _ => .response 200 none⟩
      ⟨"my-script", "file.js", "http://localhost:4000", true⟩
      (.ok ⟨EventKind.modify, ["file.js"]⟩) =
    handleEvent ⟨fun _ => some "x", fun _ => .response 200 none⟩
      ⟨"my-script", "file.js", "http://localhost:4000", true⟩
      (.ok ⟨EventKind.modify, ["elsewhere.js"]⟩) ∧
    handleEvent ⟨fun _ => some "x", fun _ => .response 200 none⟩
      ⟨"my-script", "file.js", "http://localhost:4000", true⟩
      (.ok ⟨EventKind.modify, ["file.js"]⟩) =
      .sleepMs 100 ::
        .postUpload
          (deploy_script ⟨fun _ => some "x", fun _ => .response 200 none⟩
            theClient "http://localhost:4000" "my-script" "file.js").1
          (deploy_script ⟨fun _ => some "x", fun _ => .response 200 none⟩
            theClient "http://localhost:4000" "my-script" "file.js").2 ::
        (if ((deploy_script ⟨fun _ => some "x", fun _ => .response 200 none⟩
            theClient "http://localhost:4000" "my-script" "file.js").2).isErr
          then [.logRedeployFailed] else []) :=
  ⟨(C10_event_path_ignored ⟨fun _ => some "x", fun _ => .response 200 none⟩
      ⟨"my-script", "file.js", "http://localhost:4000", true⟩
      EventKind.modify ["file.js"] ["elsewhere.js"]).1,
   (C10_event_path_ignored ⟨fun _ => some "x", fun _ => .response 200 none⟩
      ⟨"my-script", "file.js", "http://localhost:4000", true⟩
      EventKind.modify ["file.js"] ["elsewhere.js"]).2 (Or.inl rfl)⟩

end Deployer
